import Mathlib

/-!
Shallow embedding of the ERP.AERO backend (`src/server.js`, with the pool
configured in `src/config/database.js`).

Modelling conventions, shared by every handler below:

* The relational store is an external collaborator.  A `SELECT` is modelled
  as returning its result rows (the handlers read `result[0]`, i.e. the first
  matching row in table order, which we model with `List.find?`); an `INSERT`
  or `UPDATE` is modelled as the corresponding transformation of the row list.
* Library collaborators (Joi's email check, bcrypt's hash and compare,
  jsonwebtoken's sign and verify) are taken as opaque function parameters of
  the handlers, so that every theorem holds for all behaviours of those
  libraries.
* JavaScript objects are modelled as association lists of `JVal`s, so that a
  property read of a key the object does not carry yields `undefined`
  (`JVal.undef`) exactly as in JavaScript.  This matters because the source
  reads properties (`user.name`, `file.mimeType`) that the objects produced
  elsewhere in the source do not have.
-/

namespace ErpAero

/-- A JavaScript value, as far as the handlers inspect them. -/
inductive JVal where
  | undef : JVal
  | num : Nat → JVal
  | str : String → JVal
deriving DecidableEq, Repr

/-- JavaScript property read `o.k` on an object literal: a missing key reads
as `undefined`. -/
def jsGet (o : List (String × JVal)) (k : String) : JVal :=
  match o.find? (fun p => p.1 == k) with
  | some p => p.2
  | none => JVal.undef

/-- JavaScript template interpolation of a possibly-undefined string value:
an undefined value renders as the text "undefined". -/
def jsTemplateStr (v : Option String) : String :=
  match v with
  | none => "undefined"
  | some s => s

/-! ### Signup (`POST /users/signup`, server.js lines 41-61) -/

/-- The JSON body of a signup request; a field a client did not send is
`none` (JavaScript `undefined` after destructuring). -/
structure SignupBody where
  firstName : Option String
  lastName : Option String
  email : Option String
  phoneNumber : Option String
  password : Option String
deriving DecidableEq, Repr

/-- A row inserted into `users` by the signup handler (server.js line 52:
`INSERT INTO users (first_name, last_name, email, password)`). -/
structure UserInsert where
  first_name : String
  last_name : String
  email : String
  password : String
deriving DecidableEq, Repr

/-- The response of the signup handler. -/
structure SignupResult where
  status : Nat
  error : Option String
  message : Option String
deriving DecidableEq, Repr

/-- `registrationSchema.validate` (server.js lines 19-25) with Joi's default
abort-early behaviour: the first failing key, in schema order, produces the
error.  `Joi.string().required()` rejects a missing key and the empty string;
`email` additionally runs Joi's email check (the opaque `emailValid`);
`phoneNumber` must have length exactly 12; `password` length at least 5. -/
def validateRegistration (emailValid : String → Bool)
    (fn ln em pn pw : Option String) : Option String :=
  match fn with
  | none => some "firstName is required"
  | some fnv =>
    if fnv = "" then some "firstName is not allowed to be empty" else
    match ln with
    | none => some "lastName is required"
    | some lnv =>
      if lnv = "" then some "lastName is not allowed to be empty" else
      match em with
      | none => some "email is required"
      | some emv =>
        if emv = "" then some "email is not allowed to be empty" else
        if !(emailValid emv) then some "email must be a valid email" else
        match pn with
        | none => some "phoneNumber is required"
        | some pnv =>
          if pnv = "" then some "phoneNumber is not allowed to be empty" else
          if pnv.length ≠ 12 then some "phoneNumber length must be 12 characters long" else
          match pw with
          | none => some "password is required"
          | some pwv =>
            if pwv = "" then some "password is not allowed to be empty" else
            if pwv.length < 5 then some "password length must be at least 5 characters long" else
            none

/-- The signup handler (server.js lines 41-61).  Line 42 destructures only
`firstName, lastName, email, password` from the body — NOT `phoneNumber` —
and line 43 validates exactly that four-field object against the five-field
schema, so the schema's `phoneNumber` slot is always `undefined` (`none`
below).  On a validation error it answers 400 with the first error message
and performs no insert; otherwise it hashes the password (opaque
`bcryptHash`) and inserts the row.  The returned list is the list of rows
inserted into `users` by the request. -/
def signupHandler (emailValid : String → Bool) (bcryptHash : String → String)
    (body : SignupBody) : SignupResult × List UserInsert :=
  match validateRegistration emailValid body.firstName body.lastName body.email none body.password with
  | some msg => ({ status := 400, error := some msg, message := none }, [])
  | none =>
    let hashed := bcryptHash (body.password.getD "")
    ({ status := 200, error := none, message := some "User registered successfully" },
     [{ first_name := body.firstName.getD "", last_name := body.lastName.getD "",
        email := body.email.getD "", password := hashed }])

/-- Claim C1: the signup handler never reaches its success path.  Because
line 42 fails to destructure `phoneNumber`, the object handed to the
validator always has `phoneNumber` missing, the required-key check fails,
and the handler answers 400 with no row inserted — for every request body,
including bodies that satisfy the full schema, and for every behaviour of the
email validator and the hasher.  This refutes the claim that schema-valid
bodies get a 200 and an inserted row. -/
theorem signup_always_rejects (emailValid : String → Bool)
    (bcryptHash : String → String) (body : SignupBody) :
    (signupHandler emailValid bcryptHash body).1.status = 400 ∧
    (signupHandler emailValid bcryptHash body).2 = [] := by
  have hval : ∀ fn ln em pw, (validateRegistration emailValid fn ln em none pw).isSome := by
    intro fn ln em pw
    rcases fn with _ | fnv <;> rcases ln with _ | lnv <;> rcases em with _ | emv <;>
      rcases pw with _ | pwv <;> simp only [validateRegistration] <;>
      (repeat' split) <;> rfl
  rcases h : validateRegistration emailValid body.firstName body.lastName body.email none
      body.password with _ | msg
  · exact absurd (hval body.firstName body.lastName body.email body.password)
      (by simp [h])
  · constructor <;> simp [signupHandler, h]

/-! ### Refresh-token registry, refresh and logout
(`POST /signin/new_token` lines 66-75, `DELETE /logout` lines 275-278,
registry declared at line 64) -/

/-- The token a signed JWT denotes.  Modelled from the spec: the token
issuer/verifier is the jsonwebtoken library (an external collaborator); a
signed token is its claims payload together with the signing secret and the
expiry in seconds (10 minutes = 600 s for access tokens, 7 days = 604800 s
for refresh tokens). -/
structure JwtModel where
  payload : List (String × JVal)
  secret : String
  expSeconds : Nat
deriving DecidableEq, Repr

/-- Modelled from the spec: `generateAccessToken` is called at server.js
line 72 but is defined nowhere in the source tree; per the spec's Token
Issuer component, issuing an access token signs the given claims object with
the access secret and a 10-minute expiry. -/
def generateAccessToken (user : List (String × JVal)) : JwtModel :=
  { payload := user, secret := "ACCESS_SECRET_TOKEN", expSeconds := 600 }

/-- Response of the refresh handler.  `accessToken` is the token issued on
the success path (the JSON `{ accessToken }` body); bare-status answers
carry none. -/
structure RefreshResponse where
  status : Nat
  accessToken : Option JwtModel
deriving DecidableEq, Repr

/-- The refresh handler (server.js lines 66-75).  `token` is `req.body.token`
(`none` when the field is missing, which the source's `== null` test
catches); `registry` is the `refreshTokens` array; `verify` models
`jwt.verify(·, REFRESH_TOKEN_SECRET)` and returns the decoded claims object
on success.  On success the handler reads `user.name` from the decoded
claims and issues `generateAccessToken({ name: user.name })`. -/
def refreshHandler (registry : List String) (token : Option String)
    (verify : String → Option (List (String × JVal))) : RefreshResponse :=
  match token with
  | none => { status := 401, accessToken := none }
  | some t =>
    if registry.contains t then
      match verify t with
      | none => { status := 403, accessToken := none }
      | some user =>
        { status := 200,
          accessToken := some (generateAccessToken
            [("name", jsGet user "name")]) }
    else { status := 403, accessToken := none }

/-- The decoded claims of a refresh token issued by the signin handler
(server.js line 109): `jwt.sign({ userId: user.id }, ...)`. -/
def refreshClaims (uid : Nat) : List (String × JVal) :=
  [("userId", JVal.num uid)]

/-- The logout handler (server.js lines 275-278): the registry is replaced
by its sub-list of tokens different from `req.body.token`, and the response
is a bare 204. -/
def logoutHandler (registry : List String) (token : String) :
    List String × Nat :=
  (registry.filter (fun tk => tk != token), 204)

/-- Claim C2: a registered refresh token that verifies as `{ userId: uid }`
does make the handler answer 200 with a freshly issued access token (under
the spec-modelled `generateAccessToken`), but that token's payload is
`{ name: undefined }` — reading `user.name` on claims that carry only
`userId` gives `undefined` — so the issued token carries no `userId` claim
at all and is not bound to the refresh token's user identity. -/
theorem refresh_not_bound_to_user (registry : List String) (t : String)
    (uid : Nat) (verify : String → Option (List (String × JVal)))
    (hmem : registry.contains t = true)
    (hv : verify t = some (refreshClaims uid)) :
    (refreshHandler registry (some t) verify).status = 200 ∧
    (refreshHandler registry (some t) verify).accessToken =
      some { payload := [("name", JVal.undef)],
             secret := "ACCESS_SECRET_TOKEN", expSeconds := 600 } ∧
    ∀ tok, (refreshHandler registry (some t) verify).accessToken = some tok →
      jsGet tok.payload "userId" = JVal.undef := by
  have hm : t ∈ registry := by simpa using hmem
  refine ⟨?_, ?_, ?_⟩ <;>
    simp [refreshHandler, hm, hv, refreshClaims, generateAccessToken, jsGet]

/-- Witness for C2's theorem at a concrete registry, token and verifier. -/
theorem refresh_not_bound_to_user_witness :
    (refreshHandler ["r1"] (some "r1")
      (fun _ => some (refreshClaims 7))).status = 200 ∧
    (refreshHandler ["r1"] (some "r1")
      (fun _ => some (refreshClaims 7))).accessToken =
      some { payload := [("name", JVal.undef)],
             secret := "ACCESS_SECRET_TOKEN", expSeconds := 600 } ∧
    ∀ tok, (refreshHandler ["r1"] (some "r1")
        (fun _ => some (refreshClaims 7))).accessToken = some tok →
      jsGet tok.payload "userId" = JVal.undef :=
  refresh_not_bound_to_user ["r1"] "r1" 7 (fun _ => some (refreshClaims 7))
    (by decide) rfl

/-- Claim C4: the refresh handler's error paths.  A missing token answers
401; a token absent from the registry answers 403; a registered token whose
signature/expiry verification fails answers 403 — for every registry and
every verifier behaviour. -/
theorem refresh_error_codes (registry : List String)
    (verify : String → Option (List (String × JVal))) (t : String) :
    (refreshHandler registry none verify).status = 401 ∧
    (registry.contains t = false →
      (refreshHandler registry (some t) verify).status = 403) ∧
    (registry.contains t = true → verify t = none →
      (refreshHandler registry (some t) verify).status = 403) := by
  refine ⟨rfl, ?_, ?_⟩
  · intro h
    have hm : t ∉ registry := by simpa using h
    simp [refreshHandler, hm]
  · intro h hv
    have hm : t ∈ registry := by simpa using h
    simp [refreshHandler, hm, hv]

/-- Witness for C4's theorem: a one-token registry, a foreign token, and a
verifier that rejects everything. -/
theorem refresh_error_codes_witness :
    (refreshHandler ["r1"] none (fun _ => none)).status = 401 ∧
    (refreshHandler ["r1"] (some "zz") (fun _ => none)).status = 403 ∧
    (refreshHandler ["r1"] (some "r1") (fun _ => none)).status = 403 :=
  ⟨(refresh_error_codes ["r1"] (fun _ => none) "zz").1,
   (refresh_error_codes ["r1"] (fun _ => none) "zz").2.1 (by decide),
   (refresh_error_codes ["r1"] (fun _ => none) "r1").2.2 (by decide) rfl⟩

/-- Claim C7: logout filters the token out of the registry and answers 204
whether or not the token was present (in particular it is a no-op on a
registry not containing the token), and a subsequent refresh with the
logged-out token answers 403, for every verifier. -/
theorem logout_revokes (registry : List String) (t : String)
    (verify : String → Option (List (String × JVal))) :
    (logoutHandler registry t).2 = 204 ∧
    t ∉ (logoutHandler registry t).1 ∧
    (t ∉ registry → (logoutHandler registry t).1 = registry) ∧
    (refreshHandler (logoutHandler registry t).1 (some t) verify).status
      = 403 := by
  have hnotmem : t ∉ (logoutHandler registry t).1 := by
    simp [logoutHandler, List.mem_filter]
  refine ⟨rfl, hnotmem, ?_, ?_⟩
  · intro habs
    simp only [logoutHandler]
    exact List.filter_eq_self.mpr fun tk hmem => by
      simp only [bne_iff_ne, ne_eq, decide_eq_true_eq]
      exact fun he => habs (he ▸ hmem)
  · simp [refreshHandler, hnotmem]

/-- Witness for C7's theorem: logging "r1" out of a two-token registry. -/
theorem logout_revokes_witness :
    (logoutHandler ["r1", "r2"] "r1").2 = 204 ∧
    "r1" ∉ (logoutHandler ["r1", "r2"] "r1").1 ∧
    ("r1" ∉ ["r2"] → (logoutHandler ["r2"] "r1").1 = ["r2"]) ∧
    (refreshHandler (logoutHandler ["r1", "r2"] "r1").1 (some "r1")
      (fun _ => some (refreshClaims 7))).status = 403 :=
  ⟨(logout_revokes ["r1", "r2"] "r1" (fun _ => some (refreshClaims 7))).1,
   (logout_revokes ["r1", "r2"] "r1" (fun _ => some (refreshClaims 7))).2.1,
   (logout_revokes ["r2"] "r1" (fun _ => some (refreshClaims 7))).2.2.1,
   (logout_revokes ["r1", "r2"] "r1" (fun _ => some (refreshClaims 7))).2.2.2⟩

/-! ### Signin (`POST /users/signin`, server.js lines 77-118) -/

/-- A row of the `users` table as the signin handler reads it. -/
structure UserRow where
  id : Nat
  first_name : String
  last_name : String
  email : String
  phone_number : String
  password : String
deriving DecidableEq, Repr

/-- The lookup `SELECT * FROM users WHERE email = ? OR phone_number = ?`
followed by `rows[0]` (server.js lines 80-97): the first row, in table
order, whose email or phone number equals the identifier. -/
def findUserByIdentifier (db : List UserRow) (identifier : String) :
    Option UserRow :=
  db.find? (fun u => u.email == identifier || u.phone_number == identifier)

/-- The JSON response of the signin handler.  The token fields are the JWT
strings of the `{ accessToken, refreshToken }` success body. -/
structure SigninResponse where
  status : Nat
  error : Option String
  accessToken : Option String
  refreshToken : Option String
deriving DecidableEq, Repr

/-- The signin handler (server.js lines 77-118).  `cmp` models
`bcrypt.compare`; `sign` models `jwt.sign(payload, secret, expirySeconds)`
('10m' = 600 s, '7d' = 604800 s).  Returns the response together with the
`refreshTokens` registry after the request (line 110 pushes the new refresh
token on success). -/
def signinHandler (db : List UserRow) (identifier password : String)
    (cmp : String → String → Bool)
    (sign : List (String × JVal) → String → Nat → String)
    (registry : List String) : SigninResponse × List String :=
  match findUserByIdentifier db identifier with
  | none =>
    ({ status := 401, error := some "Invalid credentials",
       accessToken := none, refreshToken := none }, registry)
  | some user =>
    if !(cmp password user.password) then
      ({ status := 401, error := some "Invalid credentials",
         accessToken := none, refreshToken := none }, registry)
    else
      let accessToken := sign [("userId", JVal.num user.id)]
        "ACCESS_SECRET_TOKEN" 600
      let refreshToken := sign [("userId", JVal.num user.id)]
        "REFRESH_TOKEN_SECRET" 604800
      ({ status := 200, error := none,
         accessToken := some accessToken, refreshToken := some refreshToken },
       registry ++ [refreshToken])

/-- Claim C5: a signin whose identifier matches no user row and a signin
whose identifier matches a row but whose password fails bcrypt verification
produce identical results — the same 401 status, the same
`Invalid credentials` error body, no tokens, and an unchanged registry — so
the response does not reveal which half failed. -/
theorem signin_indistinguishable (db : List UserRow)
    (id1 pw1 id2 pw2 : String) (cmp : String → String → Bool)
    (sign : List (String × JVal) → String → Nat → String)
    (registry : List String) (u : UserRow)
    (h1 : findUserByIdentifier db id1 = none)
    (h2 : findUserByIdentifier db id2 = some u)
    (h3 : cmp pw2 u.password = false) :
    signinHandler db id1 pw1 cmp sign registry
      = signinHandler db id2 pw2 cmp sign registry ∧
    (signinHandler db id1 pw1 cmp sign registry).1.status = 401 ∧
    (signinHandler db id1 pw1 cmp sign registry).1.error
      = some "Invalid credentials" ∧
    (signinHandler db id1 pw1 cmp sign registry).2 = registry := by
  refine ⟨?_, ?_, ?_, ?_⟩ <;> simp [signinHandler, h1, h2, h3]

/-- Witness for C5's theorem: a one-user table, an unknown identifier on one
side and the known email with a rejected password on the other. -/
theorem signin_indistinguishable_witness :
    signinHandler
        [{ id := 1, first_name := "A", last_name := "B", email := "a@b.c",
           phone_number := "374000000000", password := "HASH" }]
        "nobody" "pw" (fun _ _ => false) (fun _ _ _ => "TOK") []
      = signinHandler
        [{ id := 1, first_name := "A", last_name := "B", email := "a@b.c",
           phone_number := "374000000000", password := "HASH" }]
        "a@b.c" "wrong" (fun _ _ => false) (fun _ _ _ => "TOK") [] ∧
    (signinHandler
        [{ id := 1, first_name := "A", last_name := "B", email := "a@b.c",
           phone_number := "374000000000", password := "HASH" }]
        "nobody" "pw" (fun _ _ => false) (fun _ _ _ => "TOK") []).1.status
      = 401 ∧
    (signinHandler
        [{ id := 1, first_name := "A", last_name := "B", email := "a@b.c",
           phone_number := "374000000000", password := "HASH" }]
        "nobody" "pw" (fun _ _ => false) (fun _ _ _ => "TOK") []).1.error
      = some "Invalid credentials" ∧
    (signinHandler
        [{ id := 1, first_name := "A", last_name := "B", email := "a@b.c",
           phone_number := "374000000000", password := "HASH" }]
        "nobody" "pw" (fun _ _ => false) (fun _ _ _ => "TOK") []).2 = [] :=
  signin_indistinguishable
    [{ id := 1, first_name := "A", last_name := "B", email := "a@b.c",
       phone_number := "374000000000", password := "HASH" }]
    "nobody" "pw" "a@b.c" "wrong" (fun _ _ => false) (fun _ _ _ => "TOK") []
    { id := 1, first_name := "A", last_name := "B", email := "a@b.c",
      phone_number := "374000000000", password := "HASH" }
    (by decide) (by decide) rfl

/-! ### File rows, download and update
(`GET /file/download/:id` lines 221-243, `PUT /file/update/:id` lines
246-273; the `files` columns come from the upload insert at line 126 —
`name, extension, mime_type, size` — plus the `filename` column that
download/update/delete read and that update writes at line 265) -/

/-- A row of the `files` table. -/
structure FileRow where
  id : Nat
  name : String
  extension : String
  mime_type : String
  size : Nat
  filename : String
deriving DecidableEq, Repr

/-- JavaScript property read of a string-valued column on a row produced by
`SELECT * FROM files`: the object's keys are exactly the column names, so
reading any other key — in particular the camel-cased `mimeType` that the
download handler uses at server.js line 236 — yields `undefined` (`none`). -/
def rowProp (r : FileRow) : String → Option String
  | "name" => some r.name
  | "extension" => some r.extension
  | "mime_type" => some r.mime_type
  | "filename" => some r.filename
  | _ => none

/-- The row lookup `SELECT * FROM files WHERE id = ?` followed by
`result[0]`. -/
def findFileById (db : List FileRow) (fileId : Nat) : Option FileRow :=
  db.find? (fun r => r.id == fileId)

/-- What the download handler answers, together with the list of filesystem
paths it streamed (`res.sendFile`); header fields record the handler's own
`res.setHeader` calls. -/
structure DownloadResult where
  status : Nat
  contentDisposition : Option String
  contentType : Option String
  fsReads : List String
deriving DecidableEq, Repr

/-- The download handler (server.js lines 221-243).  A missing row answers
404 before any path is built or streamed.  On a found row it sets
`Content-Disposition` from `file.filename` (template interpolation, so an
undefined value renders as the text "undefined") and then calls
`res.setHeader("Content-Type", file.mimeType)`; since the row carries
`mime_type`, not `mimeType`, that value is `undefined`, `setHeader` throws,
and the catch block answers 500 — the file is never streamed. -/
def downloadHandler (db : List FileRow) (fileId : Nat) : DownloadResult :=
  match findFileById db fileId with
  | none =>
    { status := 404, contentDisposition := none, contentType := none,
      fsReads := [] }
  | some file =>
    let disposition :=
      "attachment; filename=" ++ jsTemplateStr (rowProp file "filename")
    match rowProp file "mimeType" with
    | none =>
      { status := 500, contentDisposition := some disposition,
        contentType := none, fsReads := [] }
    | some ct =>
      { status := 200, contentDisposition := some disposition,
        contentType := some ct,
        fsReads := ["uploads/" ++ jsTemplateStr (rowProp file "filename")] }

/-- The update handler (server.js lines 246-273) restricted to its effect on
the `files` table and its status: a missing row answers 404 and leaves the
table unchanged; otherwise `UPDATE files SET filename = ? WHERE id = ?`
replaces the `filename` of every row with the requested id by the
multer-generated name of the new attachment and answers 200.  (The
best-effort unlink of the old blob touches only the disk, not the table.) -/
def updateHandler (db : List FileRow) (fileId : Nat) (newFilename : String) :
    List FileRow × Nat :=
  match findFileById db fileId with
  | none => (db, 404)
  | some _ =>
    (db.map (fun r => if r.id == fileId then { r with filename := newFilename }
      else r), 200)

/-- Claim C3: on a download request whose id does match a row, the handler
never answers with the row's mime type.  It reads `file.mimeType`, but the
column (and hence the row property) is named `mime_type`, so the value
passed to `setHeader` is undefined, `setHeader` throws, and the response is
a 500 with no `Content-Type` header — refuting the claim that the response
carries `Content-Type` equal to the stored mime type. -/
theorem download_mime_type_never_sent (db : List FileRow) (fileId : Nat)
    (file : FileRow) (h : findFileById db fileId = some file) :
    (downloadHandler db fileId).status = 500 ∧
    (downloadHandler db fileId).contentType = none ∧
    (downloadHandler db fileId).contentType ≠ some file.mime_type ∧
    (downloadHandler db fileId).contentDisposition
      = some ("attachment; filename=" ++ file.filename) := by
  refine ⟨?_, ?_, ?_, ?_⟩ <;>
    simp [downloadHandler, h, rowProp, jsTemplateStr]

/-- Witness for C3's theorem: a one-row table holding a stored mime type. -/
theorem download_mime_type_never_sent_witness :
    (downloadHandler
        [{ id := 1, name := "report", extension := ".txt",
           mime_type := "text/plain", size := 3,
           filename := "1717-42.txt" }] 1).status = 500 ∧
    (downloadHandler
        [{ id := 1, name := "report", extension := ".txt",
           mime_type := "text/plain", size := 3,
           filename := "1717-42.txt" }] 1).contentType = none ∧
    (downloadHandler
        [{ id := 1, name := "report", extension := ".txt",
           mime_type := "text/plain", size := 3,
           filename := "1717-42.txt" }] 1).contentType
      ≠ some "text/plain" ∧
    (downloadHandler
        [{ id := 1, name := "report", extension := ".txt",
           mime_type := "text/plain", size := 3,
           filename := "1717-42.txt" }] 1).contentDisposition
      = some "attachment; filename=1717-42.txt" :=
  download_mime_type_never_sent
    [{ id := 1, name := "report", extension := ".txt",
       mime_type := "text/plain", size := 3, filename := "1717-42.txt" }] 1
    { id := 1, name := "report", extension := ".txt",
      mime_type := "text/plain", size := 3, filename := "1717-42.txt" }
    (by decide)

/-- Claim C9: a download request whose id matches no row answers 404 with no
filesystem access — no path is resolved and nothing is streamed (and no
headers are set either). -/
theorem download_missing_row_404_no_fs (db : List FileRow) (fileId : Nat)
    (h : findFileById db fileId = none) :
    (downloadHandler db fileId).status = 404 ∧
    (downloadHandler db fileId).fsReads = [] ∧
    (downloadHandler db fileId).contentDisposition = none ∧
    (downloadHandler db fileId).contentType = none := by
  refine ⟨?_, ?_, ?_, ?_⟩ <;> simp [downloadHandler, h]

/-- Witness for C9's theorem: id 2 misses a one-row table. -/
theorem download_missing_row_404_no_fs_witness :
    (downloadHandler
        [{ id := 1, name := "report", extension := ".txt",
           mime_type := "text/plain", size := 3,
           filename := "1717-42.txt" }] 2).status = 404 ∧
    (downloadHandler
        [{ id := 1, name := "report", extension := ".txt",
           mime_type := "text/plain", size := 3,
           filename := "1717-42.txt" }] 2).fsReads = [] ∧
    (downloadHandler
        [{ id := 1, name := "report", extension := ".txt",
           mime_type := "text/plain", size := 3,
           filename := "1717-42.txt" }] 2).contentDisposition = none ∧
    (downloadHandler
        [{ id := 1, name := "report", extension := ".txt",
           mime_type := "text/plain", size := 3,
           filename := "1717-42.txt" }] 2).contentType = none :=
  download_missing_row_404_no_fs
    [{ id := 1, name := "report", extension := ".txt",
       mime_type := "text/plain", size := 3, filename := "1717-42.txt" }] 2
    (by decide)

/-- Claim C8: on an update request whose id matches a row, the handler
answers 200 and, position for position, leaves `name`, `extension`,
`mime_type`, `size` (and `id`) untouched; the `filename` of the matched
row becomes the fresh stored name of the new attachment, and rows with
other ids keep their filename too. -/
theorem update_only_touches_filename (db : List FileRow) (fileId : Nat)
    (newFilename : String) (file : FileRow)
    (h : findFileById db fileId = some file) :
    (updateHandler db fileId newFilename).2 = 200 ∧
    (updateHandler db fileId newFilename).1.length = db.length ∧
    ∀ j : Nat,
      ((updateHandler db fileId newFilename).1.get? j).map FileRow.name
        = (db.get? j).map FileRow.name ∧
      ((updateHandler db fileId newFilename).1.get? j).map FileRow.extension
        = (db.get? j).map FileRow.extension ∧
      ((updateHandler db fileId newFilename).1.get? j).map FileRow.mime_type
        = (db.get? j).map FileRow.mime_type ∧
      ((updateHandler db fileId newFilename).1.get? j).map FileRow.size
        = (db.get? j).map FileRow.size ∧
      ((updateHandler db fileId newFilename).1.get? j).map FileRow.id
        = (db.get? j).map FileRow.id ∧
      (∀ r, db.get? j = some r → r.id = fileId →
        ((updateHandler db fileId newFilename).1.get? j).map FileRow.filename
          = some newFilename) ∧
      (∀ r, db.get? j = some r → r.id ≠ fileId →
        ((updateHandler db fileId newFilename).1.get? j).map FileRow.filename
          = some r.filename) := by
  have hup : (updateHandler db fileId newFilename)
      = (db.map (fun r => if r.id == fileId
          then { r with filename := newFilename } else r), 200) := by
    simp [updateHandler, h]
  rw [hup]
  refine ⟨rfl, by simp, ?_⟩
  intro j
  rcases hj : db.get? j with _ | r
  · have hj2 : db[j]? = none := by rw [← List.get?_eq_getElem?]; exact hj
    simp [List.get?_eq_getElem?, List.getElem?_map, hj2]
  · have hj2 : db[j]? = some r := by rw [← List.get?_eq_getElem?]; exact hj
    by_cases hid : r.id = fileId <;>
      simp [List.get?_eq_getElem?, List.getElem?_map, hj2, hid]

/-- A sample two-row `files` table used by the frame-effect witness. -/
def sampleDb : List FileRow :=
  [{ id := 1, name := "a", extension := ".a", mime_type := "t/a",
     size := 1, filename := "old-a" },
   { id := 2, name := "b", extension := ".b", mime_type := "t/b",
     size := 2, filename := "old-b" }]

/-- Witness for C8's theorem: updating id 1 of the sample table. -/
theorem update_only_touches_filename_witness :
    (updateHandler sampleDb 1 "new-a").2 = 200 ∧
    (updateHandler sampleDb 1 "new-a").1.length = sampleDb.length ∧
    ∀ j : Nat,
      ((updateHandler sampleDb 1 "new-a").1.get? j).map FileRow.name
        = (sampleDb.get? j).map FileRow.name ∧
      ((updateHandler sampleDb 1 "new-a").1.get? j).map FileRow.extension
        = (sampleDb.get? j).map FileRow.extension ∧
      ((updateHandler sampleDb 1 "new-a").1.get? j).map FileRow.mime_type
        = (sampleDb.get? j).map FileRow.mime_type ∧
      ((updateHandler sampleDb 1 "new-a").1.get? j).map FileRow.size
        = (sampleDb.get? j).map FileRow.size ∧
      ((updateHandler sampleDb 1 "new-a").1.get? j).map FileRow.id
        = (sampleDb.get? j).map FileRow.id ∧
      (∀ r, sampleDb.get? j = some r → r.id = 1 →
        ((updateHandler sampleDb 1 "new-a").1.get? j).map FileRow.filename
          = some "new-a") ∧
      (∀ r, sampleDb.get? j = some r → r.id ≠ 1 →
        ((updateHandler sampleDb 1 "new-a").1.get? j).map FileRow.filename
          = some r.filename) :=
  update_only_touches_filename sampleDb 1 "new-a"
    { id := 1, name := "a", extension := ".a", mime_type := "t/a",
      size := 1, filename := "old-a" }
    (by decide)

/-! ### File list with pagination (`GET /file/list`, server.js lines
140-169) -/

/-- The whitespace JavaScript `parseInt` skips before parsing: the ASCII
whitespace and line terminators plus the Unicode space separators (NBSP,
Ogham space, the U+2000 block, line and paragraph separators, narrow and
mathematical spaces, ideographic space) and the BOM. -/
def isJsWhitespace (c : Char) : Bool :=
  c = ' ' || c = '\t' || c = '\n' || c = '\r' || c = '\x0B' || c = '\x0C' ||
  c = '\xA0' || c = '\u1680' || ('\u2000' ≤ c && c ≤ '\u200A') ||
  c = '\u2028' || c = '\u2029' || c = '\u202F' || c = '\u205F' ||
  c = '\u3000' || c = '\uFEFF'

/-- The decimal step of JavaScript `parseInt`: the leading run of decimal
digits of the character list, or `NaN` (`none`) when there is none. -/
def parseDigits (cs : List Char) : Option Nat :=
  let ds := cs.takeWhile (fun c => c.isDigit)
  if ds.isEmpty then none
  else some (ds.foldl (fun acc c => acc * 10 + (c.toNat - 48)) 0)

/-- A hexadecimal digit, as `parseInt` accepts after a `0x` prefix. -/
def isHexDigitChar (c : Char) : Bool :=
  c.isDigit || ('a' ≤ c && c ≤ 'f') || ('A' ≤ c && c ≤ 'F')

/-- The numeric value of a hexadecimal digit. -/
def hexVal (c : Char) : Nat :=
  if c.isDigit then c.toNat - 48
  else if 'a' ≤ c && c ≤ 'f' then c.toNat - 87
  else c.toNat - 55

/-- The hexadecimal step of JavaScript `parseInt` after a `0x`/`0X` prefix:
the leading run of hex digits, or `NaN` (`none`) when there is none (as in
`parseInt("0x")`). -/
def parseHexDigits (cs : List Char) : Option Nat :=
  let ds := cs.takeWhile isHexDigitChar
  if ds.isEmpty then none
  else some (ds.foldl (fun acc c => acc * 16 + hexVal c) 0)

/-- The magnitude step of JavaScript `parseInt`, after whitespace and an
optional sign have been consumed: a `0x`/`0X` prefix switches to radix 16,
anything else reads the leading decimal digit run; whatever follows the
digits is ignored. -/
def parseIntAbs (cs : List Char) : Option Nat :=
  match cs with
  | '0' :: 'x' :: rest => parseHexDigits rest
  | '0' :: 'X' :: rest => parseHexDigits rest
  | _ => parseDigits cs

/-- JavaScript `parseInt(str)` with no radix argument: skip leading
whitespace, allow a single sign, honour a `0x`/`0X` hexadecimal prefix,
otherwise read the leading decimal digit run; no digits means `NaN`
(`none`).  `parseInt("-0")` is `-0`, which this model returns as
`some 0` — like `-0`, a falsy value. -/
def parseIntJS (s : String) : Option Int :=
  match s.data.dropWhile isJsWhitespace with
  | [] => none
  | '-' :: rest => (parseIntAbs rest).map (fun m => -(m : Int))
  | '+' :: rest => (parseIntAbs rest).map (fun m => (m : Int))
  | cs => (parseIntAbs cs).map (fun m => (m : Int))

/-- JavaScript `x || d` applied to a `parseInt` result: `NaN` and `0` (and
`-0`) are falsy and give the default, every other number is itself. -/
def jsOrI (v : Option Int) (d : Int) : Int :=
  match v with
  | none => d
  | some n => if n = 0 then d else n

/-- The pagination summary of the list response (server.js lines 158-163). -/
structure Pagination where
  totalFiles : Nat
  totalPages : Int
  currentPage : Int
  pageSize : Int
deriving DecidableEq, Repr

/-- The list response: the sliced rows plus the pagination summary. -/
structure ListResult where
  status : Nat
  files : List FileRow
  pagination : Pagination
deriving DecidableEq, Repr

/-- The core of the list handler, after parameter parsing (server.js lines
143-164): `offset = (page - 1) * pageSize`; the row count; the rows of
`SELECT * FROM files LIMIT pageSize OFFSET offset` in table order (drop
`offset`, take `pageSize`); `totalPages = Math.ceil(totalCount / pageSize)`,
a ceiling over exact rational division since JavaScript divides numbers and
the operands here stay far below 2^53. -/
def listCore (rows : List FileRow) (pageSize page : Int) : ListResult :=
  let offset := (page - 1) * pageSize
  let totalCount := rows.length
  let files := (rows.drop offset.toNat).take pageSize.toNat
  let totalPages := Int.ceil ((totalCount : ℚ) / (pageSize : ℚ))
  { status := 200,
    files := files,
    pagination := { totalFiles := totalCount, totalPages := totalPages,
                    currentPage := page, pageSize := pageSize } }

/-- The list handler (server.js lines 140-169):
`pageSize = parseInt(req.query.list_size) || 10` and
`page = parseInt(req.query.page) || 1`, then the core above.  A query
parameter the client did not send is `none` (`parseInt(undefined)` is
`NaN`). -/
def listHandler (rows : List FileRow) (list_size page : Option String) :
    ListResult :=
  listCore rows (jsOrI (list_size.bind parseIntJS) 10)
    (jsOrI (page.bind parseIntJS) 1)

/-- A sample `files` row for the pagination instances. -/
def sampleFile (i : Nat) : FileRow :=
  { id := i, name := "f", extension := ".txt", mime_type := "text/plain",
    size := 1, filename := "stored.txt" }

/-- A 25-row `files` table for the pagination instance of the spec. -/
def rows25 : List FileRow := (List.range 25).map sampleFile

/-- `Math.ceil` of an exact quotient of a natural by a positive natural is
the rounded-up natural division `(n + s - 1) / s`. -/
lemma ceil_cast_div (n s : Nat) (hs : 1 ≤ s) :
    Int.ceil ((n : ℚ) / (s : ℚ)) = (((n + s - 1) / s : ℕ) : ℤ) := by
  have hs0 : (0 : ℚ) < (s : ℚ) := by exact_mod_cast hs
  have hqr := Nat.div_add_mod (n + s - 1) s
  have hr : (n + s - 1) % s < s := Nat.mod_lt _ (by omega)
  set q := (n + s - 1) / s with hq
  have h1 : n ≤ s * q := by
    set k := s * q with hk
    omega
  have h2 : s * q < n + s := by
    set k := s * q with hk
    omega
  have hcast2 : ((q : ℤ) : ℚ) = (q : ℚ) := by push_cast; ring
  rw [Int.ceil_eq_iff, hcast2]
  constructor
  · rw [lt_div_iff₀ hs0]
    have hcast : ((s : ℚ)) * (q : ℚ) < (n : ℚ) + (s : ℚ) := by exact_mod_cast h2
    nlinarith [hcast]
  · rw [div_le_iff₀ hs0]
    have hcast : (n : ℚ) ≤ ((s : ℚ)) * (q : ℚ) := by exact_mod_cast h1
    nlinarith [hcast]

/-- What `listCore` does for an effective page `p ≥ 1` and page size
`s ≥ 1`: the slice `[(p-1)*s, (p-1)*s + s)` of the table and the full
pagination summary, `totalPages` being the rounded-up division
`⌈totalFiles / s⌉ = (totalFiles + s - 1) / s`. -/
lemma listCore_spec (rows : List FileRow) (p s : Nat)
    (hp : 1 ≤ p) (hs : 1 ≤ s) :
    (listCore rows (s : Int) (p : Int)).status = 200 ∧
    (listCore rows (s : Int) (p : Int)).files
      = (rows.drop ((p - 1) * s)).take s ∧
    (listCore rows (s : Int) (p : Int)).pagination.totalFiles
      = rows.length ∧
    (listCore rows (s : Int) (p : Int)).pagination.totalPages
      = (((rows.length + s - 1) / s : ℕ) : ℤ) ∧
    (listCore rows (s : Int) (p : Int)).pagination.currentPage = (p : Int) ∧
    (listCore rows (s : Int) (p : Int)).pagination.pageSize = (s : Int) := by
  have hoff : (((p : Int) - 1) * (s : Int)).toNat = (p - 1) * s := by
    have h1 : ((p : Int) - 1) = ((p - 1 : Nat) : Int) := by omega
    rw [h1, ← Nat.cast_mul, Int.toNat_natCast]
  have htake : ((s : Nat) : Int).toNat = s := Int.toNat_natCast s
  refine ⟨rfl, ?_, rfl, ?_, rfl, rfl⟩
  · simp only [listCore, hoff, htake]
  · simp only [listCore]
    rw [show (((s : Nat) : Int) : ℚ) = ((s : Nat) : ℚ) by push_cast; ring]
    exact ceil_cast_div rows.length s hs

/-- Claim C6: for every effective page `p ≥ 1` and page size `s ≥ 1` the
list handler answers 200 with the row slice `[(p-1)*s, (p-1)*s + s)` and
the summary `totalFiles = n`, `totalPages = ⌈n / s⌉` (the rounded-up
division `(n + s - 1) / s`), `currentPage = p`, `pageSize = s`; and on the
concrete 25-row table with query parameters `list_size=10`, `page=3` the
handler returns 5 files and `totalPages = 3`. -/
theorem list_pagination_correct (rows : List FileRow) (p s : Nat)
    (hp : 1 ≤ p) (hs : 1 ≤ s) :
    ((listCore rows (s : Int) (p : Int)).status = 200 ∧
     (listCore rows (s : Int) (p : Int)).files
       = (rows.drop ((p - 1) * s)).take s ∧
     (listCore rows (s : Int) (p : Int)).pagination.totalFiles
       = rows.length ∧
     (listCore rows (s : Int) (p : Int)).pagination.totalPages
       = (((rows.length + s - 1) / s : ℕ) : ℤ) ∧
     (listCore rows (s : Int) (p : Int)).pagination.currentPage
       = (p : Int) ∧
     (listCore rows (s : Int) (p : Int)).pagination.pageSize = (s : Int)) ∧
    ((listHandler rows25 (some "10") (some "3")).files.length = 5 ∧
     (listHandler rows25 (some "10") (some "3")).pagination.totalPages = 3 ∧
     (listHandler rows25 (some "10") (some "3")).pagination.totalFiles
       = 25) := by
  refine ⟨listCore_spec rows p s hp hs, ?_, ?_, ?_⟩
  · have hred : listHandler rows25 (some "10") (some "3")
        = listCore rows25 (10 : Int) (3 : Int) := rfl
    rw [hred]
    have hfiles := (listCore_spec rows25 3 10 (by norm_num) (by norm_num)).2.1
    norm_num at hfiles ⊢
    rw [hfiles]
    decide
  · have hred : listHandler rows25 (some "10") (some "3")
        = listCore rows25 (10 : Int) (3 : Int) := rfl
    rw [hred]
    have htp := (listCore_spec rows25 3 10 (by norm_num) (by norm_num)).2.2.2.1
    norm_num at htp ⊢
    rw [htp]
    decide
  · have hred : listHandler rows25 (some "10") (some "3")
        = listCore rows25 (10 : Int) (3 : Int) := rfl
    rw [hred]
    decide

/-- Witness for C6's theorem at the concrete table and parameters of the
spec's pagination example. -/
theorem list_pagination_correct_witness :
    ((listCore rows25 ((10 : Nat) : Int) ((3 : Nat) : Int)).status = 200 ∧
     (listCore rows25 ((10 : Nat) : Int) ((3 : Nat) : Int)).files
       = (rows25.drop ((3 - 1) * 10)).take 10 ∧
     (listCore rows25 ((10 : Nat) : Int) ((3 : Nat) : Int)).pagination.totalFiles
       = rows25.length ∧
     (listCore rows25 ((10 : Nat) : Int) ((3 : Nat) : Int)).pagination.totalPages
       = (((rows25.length + 10 - 1) / 10 : ℕ) : ℤ) ∧
     (listCore rows25 ((10 : Nat) : Int) ((3 : Nat) : Int)).pagination.currentPage
       = ((3 : Nat) : Int) ∧
     (listCore rows25 ((10 : Nat) : Int) ((3 : Nat) : Int)).pagination.pageSize
       = ((10 : Nat) : Int)) ∧
    ((listHandler rows25 (some "10") (some "3")).files.length = 5 ∧
     (listHandler rows25 (some "10") (some "3")).pagination.totalPages = 3 ∧
     (listHandler rows25 (some "10") (some "3")).pagination.totalFiles
       = 25) :=
  list_pagination_correct rows25 3 10 (by norm_num) (by norm_num)

/-- Claim C10: when the `list_size` (resp. `page`) query parameter is
absent, non-numeric (`parseInt` gives `NaN`), or parses to `0` (a falsy
number), the handler substitutes the default page size 10 (resp. default
page 1); and for every request whatsoever the effective `pageSize` — the
divisor of the `totalPages` computation, echoed in the response summary —
is nonzero. -/
theorem list_defaults_never_zero :
    (∀ rows : List FileRow, ∀ q pg : Option String,
      q.bind parseIntJS = none ∨ q.bind parseIntJS = some 0 →
        (listHandler rows q pg).pagination.pageSize = 10) ∧
    (∀ rows : List FileRow, ∀ q pg : Option String,
      pg.bind parseIntJS = none ∨ pg.bind parseIntJS = some 0 →
        (listHandler rows q pg).pagination.currentPage = 1) ∧
    (∀ rows : List FileRow, ∀ q pg : Option String,
      (listHandler rows q pg).pagination.pageSize ≠ 0) := by
  refine ⟨?_, ?_, ?_⟩
  · intro rows q pg h
    rcases h with h | h <;> simp [listHandler, listCore, jsOrI, h]
  · intro rows q pg h
    rcases h with h | h <;> simp [listHandler, listCore, jsOrI, h]
  · intro rows q pg
    rcases hv : q.bind parseIntJS with _ | n
    · simp [listHandler, listCore, jsOrI, hv]
    · by_cases hn : n = 0 <;> simp [listHandler, listCore, jsOrI, hv, hn]

/-- Witness for C10's theorem: an absent `list_size`, a non-numeric
`list_size`, a zero `page`, and the nonzero guarantee at one of them. -/
theorem list_defaults_never_zero_witness :
    (listHandler rows25 none none).pagination.pageSize = 10 ∧
    (listHandler rows25 (some "abc") none).pagination.pageSize = 10 ∧
    (listHandler rows25 (some "10") (some "0")).pagination.currentPage = 1 ∧
    (listHandler rows25 (some "abc") none).pagination.pageSize ≠ 0 :=
  ⟨list_defaults_never_zero.1 rows25 none none (Or.inl rfl),
   list_defaults_never_zero.1 rows25 (some "abc") none (Or.inl rfl),
   list_defaults_never_zero.2.1 rows25 (some "10") (some "0") (Or.inr rfl),
   list_defaults_never_zero.2.2 rows25 (some "abc") none⟩

end ErpAero
